import Mathlib

/-!
Shallow embedding of `src/multi_crypto_ema_strategy.py` (class
`EstrategiaCrucesEMAs`) and proofs of the specification claims about it.

Prices, volumes and all derived numeric quantities are modelled as rationals
(`ℚ`).  Pandas/NumPy NaN sentinels (unavailable indicator values such as the
first `period - 1` outputs of `talib.EMA`) are modelled as `Option ℚ` with
`none` for NaN; comparisons against NaN are `False` in pandas, which the
`oGt`/`oLt`/`oGe`/`oLe` helpers reproduce by returning `false` whenever either
operand is `none`.

Source identifiers containing `ñ` (`generar_señales`, `señal`, ...) are
spelled with a plain `n` (`generar_senales`, `senal`, ...) because `ñ` is not
a valid Lean identifier character.
-/

/-- One OHLCV bar as produced by `obtener_datos`: the fields of the dataframe
row that the core logic reads (`high`, `low`, `close`, `volume`, `datetime`,
`symbol`).  The unused `open`/raw-`timestamp` columns are omitted. -/
structure Bar where
  datetime : ℤ
  symbol : String
  high : ℚ
  low : ℚ
  close : ℚ
  volume : ℚ
  deriving DecidableEq, Inhabited

/-- `typical_price = (df.high + df.low + df.close) / 3` from `calcular_vwap`. -/
def typicalPrice (b : Bar) : ℚ := (b.high + b.low + b.close) / 3

/-- The body of the `for i in range(len(df))` loop of `calcular_vwap`,
carrying the running sums `cumulative_pv` and `cumulative_volume`: for each
bar add its `typical_price * volume` and its `volume`, then output
`cumulative_pv / cumulative_volume` when `cumulative_volume > 0` and the
bar's typical price otherwise. -/
def vwapLoop : List Bar → ℚ → ℚ → List ℚ
  | [], _, _ => []
  | b :: rest, cumulative_pv, cumulative_volume =>
    let pv := typicalPrice b * b.volume
    let cpv := cumulative_pv + pv
    let cv := cumulative_volume + b.volume
    let vwap := if cv > 0 then cpv / cv else typicalPrice b
    vwap :: vwapLoop rest cpv cv

/-- `calcular_vwap`: the loop started with both running sums at `0`. -/
def calcular_vwap (bars : List Bar) : List ℚ := vwapLoop bars 0 0

/-- Rational division that signals an error (`none`) on a zero denominator,
mirroring Python's `ZeroDivisionError` semantics at the division site. -/
def qdivChecked (a b : ℚ) : Option ℚ := if b = 0 then none else some (a / b)

/-- `vwapLoop` with the division `cumulative_pv / cumulative_volume` replaced
by `qdivChecked`: the whole run fails (`none`) iff that division is ever
evaluated with a zero denominator. -/
def vwapLoopChecked : List Bar → ℚ → ℚ → Option (List ℚ)
  | [], _, _ => some []
  | b :: rest, cumulative_pv, cumulative_volume =>
    let pv := typicalPrice b * b.volume
    let cpv := cumulative_pv + pv
    let cv := cumulative_volume + b.volume
    let vwap? := if cv > 0 then qdivChecked cpv cv else some (typicalPrice b)
    match vwap?, vwapLoopChecked rest cpv cv with
    | some v, some vs => some (v :: vs)
    | _, _ => none

/-- Cumulative `typical_price * volume` over the first `n` bars. -/
def cumPV (bars : List Bar) (n : ℕ) : ℚ :=
  ((bars.take n).map (fun b => typicalPrice b * b.volume)).sum

/-- Cumulative volume over the first `n` bars. -/
def cumVolume (bars : List Bar) (n : ℕ) : ℚ :=
  ((bars.take n).map (fun b => b.volume)).sum

theorem vwapLoop_length (bars : List Bar) (cpv cv : ℚ) :
    (vwapLoop bars cpv cv).length = bars.length := by
  induction bars generalizing cpv cv with
  | nil => rfl
  | cons b rest ih => simp [vwapLoop, ih]

/-- Closed form of the loop output at index `i`: the running sums at step `i`
are the initial accumulators plus the prefix sums over bars `0..i`. -/
theorem vwapLoop_getD (bars : List Bar) (cpv cv : ℚ) (i : ℕ)
    (hi : i < bars.length) :
    (vwapLoop bars cpv cv).getD i 0 =
      (if cv + cumVolume bars (i + 1) > 0 then
        (cpv + cumPV bars (i + 1)) / (cv + cumVolume bars (i + 1))
      else typicalPrice (bars.getD i default)) := by
  induction bars generalizing cpv cv i with
  | nil => simp at hi
  | cons b rest ih =>
    cases i with
    | zero =>
      simp [vwapLoop, cumPV, cumVolume]
    | succ j =>
      have hj : j < rest.length := by simpa using hi
      have := ih (cpv + typicalPrice b * b.volume) (cv + b.volume) j hj
      simp only [vwapLoop, List.getD_cons_succ]
      rw [this]
      simp only [cumPV, cumVolume, List.take_succ_cons, List.map_cons,
        List.sum_cons, List.getD_cons_succ, ← add_assoc]

/-- The checked run never hits the zero-denominator error branch: it always
succeeds and agrees with the unchecked loop. -/
theorem vwapLoopChecked_eq (bars : List Bar) (cpv cv : ℚ) :
    vwapLoopChecked bars cpv cv = some (vwapLoop bars cpv cv) := by
  induction bars generalizing cpv cv with
  | nil => rfl
  | cons b rest ih =>
    simp only [vwapLoopChecked, vwapLoop, ih]
    by_cases h : cv + b.volume > 0
    · have hne : cv + b.volume ≠ 0 := ne_of_gt h
      simp [h, qdivChecked, hne]
    · simp [h]

theorem cumPV_le (l : List Bar) (M : ℚ)
    (hM : ∀ b ∈ l, typicalPrice b ≤ M) (hv : ∀ b ∈ l, 0 ≤ b.volume) :
    (l.map (fun b => typicalPrice b * b.volume)).sum ≤
      M * (l.map (fun b => b.volume)).sum := by
  induction l with
  | nil => simp
  | cons b rest ih =>
    simp only [List.map_cons, List.sum_cons, mul_add]
    have h1 : typicalPrice b * b.volume ≤ M * b.volume :=
      mul_le_mul_of_nonneg_right (hM b (by simp)) (hv b (by simp))
    have h2 := ih (fun x hx => hM x (by simp [hx])) (fun x hx => hv x (by simp [hx]))
    linarith

theorem le_cumPV (l : List Bar) (m : ℚ)
    (hm : ∀ b ∈ l, m ≤ typicalPrice b) (hv : ∀ b ∈ l, 0 ≤ b.volume) :
    m * (l.map (fun b => b.volume)).sum ≤
      (l.map (fun b => typicalPrice b * b.volume)).sum := by
  induction l with
  | nil => simp
  | cons b rest ih =>
    simp only [List.map_cons, List.sum_cons, mul_add]
    have h1 : m * b.volume ≤ typicalPrice b * b.volume :=
      mul_le_mul_of_nonneg_right (hm b (by simp)) (hv b (by simp))
    have h2 := ih (fun x hx => hm x (by simp [hx])) (fun x hx => hv x (by simp [hx]))
    linarith

/-- Claim C4: whenever the cumulative volume over bars `0..i` is zero,
`calcular_vwap` outputs `typical_price[i]` at index `i`, and the division
`cumulative_pv / cumulative_volume` is never evaluated with a zero
denominator (the checked run, which fails exactly when that happens, always
succeeds and agrees with the actual output). -/
theorem vwap_zero_volume_fallback (bars : List Bar) (i : ℕ)
    (hi : i < bars.length) (hz : cumVolume bars (i + 1) = 0) :
    vwapLoopChecked bars 0 0 = some (calcular_vwap bars) ∧
    (calcular_vwap bars).getD i 0 = typicalPrice (bars.getD i default) := by
  refine ⟨vwapLoopChecked_eq bars 0 0, ?_⟩
  have h := vwapLoop_getD bars 0 0 i hi
  rw [calcular_vwap, h, hz]
  norm_num

/-- Test fixture: a single bar with zero volume; its typical price is
`(12 + 6 + 3) / 3 = 7`. -/
def barZeroVol : Bar :=
  { datetime := 0, symbol := "WLD/USDT", high := 12, low := 6, close := 3,
    volume := 0 }

theorem vwap_zero_volume_fallback_witness :
    0 < ([barZeroVol] : List Bar).length ∧ cumVolume [barZeroVol] 1 = 0 ∧
      (vwapLoopChecked [barZeroVol] 0 0 = some (calcular_vwap [barZeroVol]) ∧
        (calcular_vwap [barZeroVol]).getD 0 0 =
          typicalPrice (([barZeroVol] : List Bar).getD 0 default)) :=
  ⟨by decide, by norm_num [cumVolume, barZeroVol],
    vwap_zero_volume_fallback [barZeroVol] 0 (by decide)
      (by norm_num [cumVolume, barZeroVol])⟩

/-- Claim C5: with non-negative volumes, the output of `calcular_vwap` at
index `i` lies between any lower bound and any upper bound of the typical
prices of bars `0..i`; instantiated at the minimum and maximum of the prefix
this is exactly membership in `[min typical_price, max typical_price]`. -/
theorem vwap_bounded (bars : List Bar) (i : ℕ) (hi : i < bars.length)
    (hv : ∀ b ∈ bars, 0 ≤ b.volume) (lo up : ℚ)
    (hlo : ∀ b ∈ bars.take (i + 1), lo ≤ typicalPrice b)
    (hup : ∀ b ∈ bars.take (i + 1), typicalPrice b ≤ up) :
    lo ≤ (calcular_vwap bars).getD i 0 ∧ (calcular_vwap bars).getD i 0 ≤ up := by
  have h := vwapLoop_getD bars 0 0 i hi
  rw [calcular_vwap, h]
  have hv' : ∀ b ∈ bars.take (i + 1), 0 ≤ b.volume := fun b hb =>
    hv b (List.mem_of_mem_take hb)
  by_cases hc : (0:ℚ) + cumVolume bars (i + 1) > 0
  · rw [if_pos hc]
    simp only [zero_add] at hc ⊢
    rw [cumVolume] at hc
    have h1 := cumPV_le (bars.take (i + 1)) up hup hv'
    have h2 := le_cumPV (bars.take (i + 1)) lo hlo hv'
    constructor
    · rw [cumPV, cumVolume, le_div_iff₀ hc]
      exact h2
    · rw [cumPV, cumVolume, div_le_iff₀ hc]
      exact h1
  · rw [if_neg hc]
    have hlen : i < (bars.take (i + 1)).length := by
      simp only [List.length_take]
      omega
    have ht : (bars.take (i + 1))[i] = bars[i] := List.getElem_take bars
    have hmem : bars.getD i default ∈ bars.take (i + 1) := by
      rw [List.getD_eq_getElem bars default hi, ← ht]
      exact List.getElem_mem hlen
    exact ⟨hlo _ hmem, hup _ hmem⟩

/-- Test fixture: a single bar with unit volume and typical price `7`. -/
def barUnitVol : Bar :=
  { datetime := 0, symbol := "WLD/USDT", high := 12, low := 6, close := 3,
    volume := 1 }

theorem vwap_bounded_witness :
    (7:ℚ) ≤ (calcular_vwap [barUnitVol]).getD 0 0 ∧
      (calcular_vwap [barUnitVol]).getD 0 0 ≤ 7 :=
  vwap_bounded [barUnitVol] 0 (by decide) (by norm_num [barUnitVol]) 7 7
    (by norm_num [typicalPrice, barUnitVol]) (by norm_num [typicalPrice, barUnitVol])

/-- Pandas/NumPy `>` with NaN-as-`none`: any comparison against NaN is false. -/
def oGt : Option ℚ → Option ℚ → Bool
  | some a, some b => decide (a > b)
  | _, _ => false

/-- Pandas/NumPy `<` with NaN-as-`none`. -/
def oLt : Option ℚ → Option ℚ → Bool
  | some a, some b => decide (a < b)
  | _, _ => false

/-- Pandas/NumPy `<=` with NaN-as-`none`. -/
def oLe : Option ℚ → Option ℚ → Bool
  | some a, some b => decide (a ≤ b)
  | _, _ => false

/-- Pandas/NumPy `>=` with NaN-as-`none`. -/
def oGe : Option ℚ → Option ℚ → Bool
  | some a, some b => decide (a ≥ b)
  | _, _ => false

/-- NaN-propagating subtraction (for `ema_rapida - ema_lenta` etc.). -/
def oSub : Option ℚ → Option ℚ → Option ℚ
  | some a, some b => some (a - b)
  | _, _ => none

/-- Recursive tail of an exponential moving average: each new value is
`(x - prev) * k + prev` with smoothing factor `k`. -/
def emaFrom (k : ℚ) : ℚ → List ℚ → List ℚ
  | _, [] => []
  | prev, x :: rest =>
    let e := (x - prev) * k + prev
    e :: emaFrom k e rest

/-- `talib.EMA(values, timeperiod=period)`: the first `period - 1` outputs are
NaN, the output at index `period - 1` is the simple average of the first
`period` inputs, and later outputs follow the recursive smoothing with
`k = 2 / (period + 1)`.  Inputs shorter than `period` give all-NaN output. -/
def talibEMA (period : ℕ) (closes : List ℚ) : List (Option ℚ) :=
  if closes.length < period ∨ period = 0 then List.replicate closes.length none
  else
    let seed := (closes.take period).sum / (period : ℚ)
    List.replicate (period - 1) none ++ some seed ::
      (emaFrom (2 / ((period : ℚ) + 1)) seed (closes.drop period)).map some

/-- Recursive tail of `talib.RSI`: Wilder smoothing of average gain and
average loss over the price differences, output rescaled to `0..100`. -/
def rsiFrom : ℚ → ℚ → List ℚ → List ℚ
  | _, _, [] => []
  | avgGain, avgLoss, d :: rest =>
    let g := (avgGain * 13 + max d 0) / 14
    let l := (avgLoss * 13 + max (-d) 0) / 14
    (if g + l = 0 then 0 else 100 * g / (g + l)) :: rsiFrom g l rest

/-- `talib.RSI(values, timeperiod=14)`: NaN for the first 14 outputs, then
the Wilder relative-strength index seeded from the first 14 differences. -/
def talibRSI (closes : List ℚ) : List (Option ℚ) :=
  let diffs := List.zipWith (fun a b => b - a) closes closes.tail
  if closes.length < 15 then List.replicate closes.length none
  else
    let initGain := ((diffs.take 14).map (fun d => max d 0)).sum / 14
    let initLoss := ((diffs.take 14).map (fun d => max (-d) 0)).sum / 14
    let first := if initGain + initLoss = 0 then 0
      else 100 * initGain / (initGain + initLoss)
    List.replicate 14 none ++ some first ::
      (rsiFrom initGain initLoss (diffs.drop 14)).map some

/-- `talib.MACD(values)` with default periods 12/26/9: the MACD line is the
difference of the two EMAs, its signal line is a 9-period EMA of the defined
MACD values, and all three outputs are NaN until the signal line is defined
(talib aligns the three outputs to start together). -/
def talibMACD (closes : List ℚ) :
    List (Option ℚ) × List (Option ℚ) × List (Option ℚ) :=
  let fast := talibEMA 12 closes
  let slow := talibEMA 26 closes
  let raw := List.zipWith oSub fast slow
  let defined := raw.filterMap id
  let sigDefined := talibEMA 9 defined
  let signalLine := List.replicate (raw.length - defined.length) none ++ sigDefined
  let macdLine := List.zipWith (fun m s => if s.isSome then m else none) raw signalLine
  let hist := List.zipWith oSub macdLine signalLine
  (macdLine, signalLine, hist)

/-- `series.shift(1)` read at index `i` for a column that may contain NaN:
NaN at index `0`, the previous entry otherwise. -/
def prevOpt (l : List (Option ℚ)) (i : ℕ) : Option ℚ :=
  if i = 0 then none else l.getD (i - 1) none

/-- `series.shift(1)` read at index `i` for an all-defined column: NaN at
index `0`, the previous entry otherwise. -/
def prevVal (l : List ℚ) (i : ℕ) : Option ℚ :=
  if i = 0 then none else some (l.getD (i - 1) 0)

/-- One dataframe row after `calcular_indicadores`: the bar columns plus all
derived columns added by the function. -/
structure AnnotatedBar where
  datetime : ℤ
  symbol : String
  high : ℚ
  low : ℚ
  close : ℚ
  volume : ℚ
  ema_rapida : Option ℚ
  ema_lenta : Option ℚ
  vwap : ℚ
  diferencia_emas : Option ℚ
  precio_vs_vwap : ℚ
  cruce_alcista_emas : Bool
  cruce_bajista_emas : Bool
  precio_sobre_vwap : Bool
  cruce_alcista_vwap : Bool
  cruce_bajista_vwap : Bool
  cruce_alcista : Bool
  cruce_bajista : Bool
  tendencia : String
  rsi : Option ℚ
  macd : Option ℚ
  macd_signal : Option ℚ
  macd_hist : Option ℚ
  deriving DecidableEq, Inhabited

/-- Row `i` of the dataframe produced by `calcular_indicadores` with EMA
periods `ema_rapida`/`ema_lenta` (source defaults 12/26):
`cruce_alcista_emas = (ema_rapida > ema_lenta) & (shift(ema_rapida) <= shift(ema_lenta))`
and symmetrically for the bearish cross; `precio_sobre_vwap = close > vwap`;
the price-vs-VWAP crosses compare `close` against `vwap` the same way;
`cruce_alcista = cruce_alcista_emas & precio_sobre_vwap`;
`cruce_bajista = cruce_bajista_emas & ~precio_sobre_vwap`;
`tendencia` is `ALCISTA` when `ema_rapida > ema_lenta` and `close > vwap`,
`BAJISTA` when `ema_rapida < ema_lenta` and `close < vwap`, else `NEUTRAL`. -/
def annotateAt (ema_rapida ema_lenta : ℕ) (bars : List Bar) (i : ℕ) :
    AnnotatedBar :=
  let closes := bars.map (fun b => b.close)
  let er := talibEMA ema_rapida closes
  let el := talibEMA ema_lenta closes
  let vwap := calcular_vwap bars
  let rsiCol := talibRSI closes
  let macd3 := talibMACD closes
  let b := bars.getD i default
  let eri := er.getD i none
  let eli := el.getD i none
  let vi := vwap.getD i 0
  let psv := decide (b.close > vi)
  let cae := oGt eri eli && oLe (prevOpt er i) (prevOpt el i)
  let cbe := oLt eri eli && oGe (prevOpt er i) (prevOpt el i)
  let cav := decide (b.close > vi) && oLe (prevVal closes i) (prevVal vwap i)
  let cbv := decide (b.close < vi) && oGe (prevVal closes i) (prevVal vwap i)
  { datetime := b.datetime, symbol := b.symbol, high := b.high, low := b.low,
    close := b.close, volume := b.volume,
    ema_rapida := eri, ema_lenta := eli, vwap := vi,
    diferencia_emas := oSub eri eli,
    precio_vs_vwap := (b.close - vi) / vi * 100,
    cruce_alcista_emas := cae, cruce_bajista_emas := cbe,
    precio_sobre_vwap := psv,
    cruce_alcista_vwap := cav, cruce_bajista_vwap := cbv,
    cruce_alcista := cae && psv,
    cruce_bajista := cbe && !psv,
    tendencia :=
      if oGt eri eli && decide (b.close > vi) then "ALCISTA"
      else if oLt eri eli && decide (b.close < vi) then "BAJISTA"
      else "NEUTRAL",
    rsi := rsiCol.getD i none,
    macd := macd3.1.getD i none,
    macd_signal := macd3.2.1.getD i none,
    macd_hist := macd3.2.2.getD i none }

/-- `calcular_indicadores`: annotate every row of the dataframe. -/
def calcular_indicadores (ema_rapida ema_lenta : ℕ) (bars : List Bar) :
    List AnnotatedBar :=
  (List.range bars.length).map (annotateAt ema_rapida ema_lenta bars)

theorem calcular_indicadores_getElem? (p q : ℕ) (bars : List Bar) (i : ℕ)
    (ab : AnnotatedBar)
    (h : (calcular_indicadores p q bars)[i]? = some ab) :
    i < bars.length ∧ ab = annotateAt p q bars i := by
  rw [calcular_indicadores, List.getElem?_map] at h
  by_cases hi : i < bars.length
  · rw [List.getElem?_range hi] at h
    simp only [Option.map_some'] at h
    exact ⟨hi, (Option.some.inj h).symm⟩
  · rw [List.getElem?_eq_none (by simpa using Nat.le_of_not_lt hi)] at h
    simp at h

theorem oLe_none_left (b : Option ℚ) : oLe none b = false := by
  cases b <;> rfl

theorem oGe_none_left (b : Option ℚ) : oGe none b = false := by
  cases b <;> rfl

theorem oGt_eq_false_of_none (a b : Option ℚ) (h : a = none ∨ b = none) :
    oGt a b = false := by
  rcases h with h | h <;> subst h
  · cases b <;> rfl
  · cases a <;> rfl

theorem oLt_eq_false_of_none (a b : Option ℚ) (h : a = none ∨ b = none) :
    oLt a b = false := by
  rcases h with h | h <;> subst h
  · cases b <;> rfl
  · cases a <;> rfl

/-- Claim C6: in any non-empty annotated bar sequence, all four crossover
flags (`cruce_alcista_emas`, `cruce_bajista_emas`, `cruce_alcista_vwap`,
`cruce_bajista_vwap`) are false at index 0, because the `shift(1)` operand is
NaN there and any comparison against NaN is false. -/
theorem crossover_flags_false_at_zero (p q : ℕ) (bars : List Bar)
    (ab : AnnotatedBar) (h : (calcular_indicadores p q bars)[0]? = some ab) :
    ab.cruce_alcista_emas = false ∧ ab.cruce_bajista_emas = false ∧
      ab.cruce_alcista_vwap = false ∧ ab.cruce_bajista_vwap = false := by
  obtain ⟨hi, hab⟩ := calcular_indicadores_getElem? p q bars 0 ab h
  subst hab
  simp [annotateAt, prevOpt, prevVal, oLe_none_left, oGe_none_left]

theorem crossover_flags_false_at_zero_witness :
    (calcular_indicadores 12 26 [barUnitVol])[0]? =
        some (annotateAt 12 26 [barUnitVol] 0) ∧
      ((annotateAt 12 26 [barUnitVol] 0).cruce_alcista_emas = false ∧
        (annotateAt 12 26 [barUnitVol] 0).cruce_bajista_emas = false ∧
        (annotateAt 12 26 [barUnitVol] 0).cruce_alcista_vwap = false ∧
        (annotateAt 12 26 [barUnitVol] 0).cruce_bajista_vwap = false) :=
  ⟨rfl, crossover_flags_false_at_zero 12 26 [barUnitVol]
    (annotateAt 12 26 [barUnitVol] 0) rfl⟩

/-- Claim C7: the combined flags `cruce_alcista` and `cruce_bajista` are
never both true at the same index: the former requires
`precio_sobre_vwap = true` and the latter requires its negation. -/
theorem combined_flags_mutually_exclusive (p q : ℕ) (bars : List Bar) (i : ℕ)
    (ab : AnnotatedBar) (h : (calcular_indicadores p q bars)[i]? = some ab) :
    ¬(ab.cruce_alcista = true ∧ ab.cruce_bajista = true) := by
  obtain ⟨hi, hab⟩ := calcular_indicadores_getElem? p q bars i ab h
  subst hab
  intro hcontra
  obtain ⟨h1, h2⟩ := hcontra
  simp only [annotateAt, Bool.and_eq_true] at h1 h2
  rw [h1.2] at h2
  simp at h2

theorem combined_flags_mutually_exclusive_witness :
    ¬((annotateAt 12 26 [barUnitVol] 0).cruce_alcista = true ∧
      (annotateAt 12 26 [barUnitVol] 0).cruce_bajista = true) :=
  combined_flags_mutually_exclusive 12 26 [barUnitVol] 0
    (annotateAt 12 26 [barUnitVol] 0) rfl

/-- Claim C8: whenever either EMA is unavailable (NaN) at an index, the
trend classification there is `NEUTRAL` (never `ALCISTA`/`BAJISTA`), because
both guarding comparisons are false on NaN. -/
theorem trend_neutral_when_ema_unavailable (p q : ℕ) (bars : List Bar)
    (i : ℕ) (ab : AnnotatedBar)
    (h : (calcular_indicadores p q bars)[i]? = some ab)
    (hna : ab.ema_rapida = none ∨ ab.ema_lenta = none) :
    ab.tendencia = "NEUTRAL" := by
  obtain ⟨hi, hab⟩ := calcular_indicadores_getElem? p q bars i ab h
  subst hab
  simp only [annotateAt] at hna ⊢
  rw [oGt_eq_false_of_none _ _ hna, oLt_eq_false_of_none _ _ hna]
  simp

theorem trend_neutral_when_ema_unavailable_witness :
    (annotateAt 12 26 [barUnitVol] 0).tendencia = "NEUTRAL" :=
  trend_neutral_when_ema_unavailable 12 26 [barUnitVol] 0
    (annotateAt 12 26 [barUnitVol] 0) rfl
    (Or.inl (by simp [annotateAt, talibEMA]))

/-- One emitted signal dict from `generar_señales` (source spelling with ñ):
type `COMPRA` (buy) or `VENTA` (sell), plus the indicator snapshot carried
from the emitting row. -/
structure Senal where
  tipo : String
  symbol : String
  datetime : ℤ
  precio : ℚ
  ema_rapida : Option ℚ
  ema_lenta : Option ℚ
  vwap : ℚ
  precio_vs_vwap : ℚ
  rsi : Option ℚ
  macd : Option ℚ
  confirmacion : List String
  deriving DecidableEq, Inhabited

/-- `confirmar_señal_compra`: append `RSI_OK` when `rsi < 70` and `MACD_OK`
when `macd > macd_signal` (both comparisons false on NaN). -/
def confirmar_senal_compra (fila : AnnotatedBar) : List String :=
  (if oLt fila.rsi (some 70) then ["RSI_OK"] else []) ++
    (if oGt fila.macd fila.macd_signal then ["MACD_OK"] else [])

/-- `confirmar_señal_venta`: append `RSI_OK` when `rsi > 30` and `MACD_OK`
when `macd < macd_signal` (both comparisons false on NaN). -/
def confirmar_senal_venta (fila : AnnotatedBar) : List String :=
  (if oGt fila.rsi (some 30) then ["RSI_OK"] else []) ++
    (if oLt fila.macd fila.macd_signal then ["MACD_OK"] else [])

/-- The BUY signal dict built by `generar_señales` from a row. -/
def senalCompra (fila : AnnotatedBar) : Senal :=
  { tipo := "COMPRA", symbol := fila.symbol, datetime := fila.datetime,
    precio := fila.close, ema_rapida := fila.ema_rapida,
    ema_lenta := fila.ema_lenta, vwap := fila.vwap,
    precio_vs_vwap := fila.precio_vs_vwap, rsi := fila.rsi,
    macd := fila.macd, confirmacion := confirmar_senal_compra fila }

/-- The SELL signal dict built by `generar_señales` from a row. -/
def senalVenta (fila : AnnotatedBar) : Senal :=
  { tipo := "VENTA", symbol := fila.symbol, datetime := fila.datetime,
    precio := fila.close, ema_rapida := fila.ema_rapida,
    ema_lenta := fila.ema_lenta, vwap := fila.vwap,
    precio_vs_vwap := fila.precio_vs_vwap, rsi := fila.rsi,
    macd := fila.macd, confirmacion := confirmar_senal_venta fila }

/-- `generar_señales`: scan the rows in index order; a row with
`cruce_alcista` set emits a BUY, else a row with `cruce_bajista` set emits a
SELL (the source `elif` gives BUY priority), other rows emit nothing. -/
def generar_senales : List AnnotatedBar → List Senal
  | [] => []
  | fila :: rest =>
    if fila.cruce_alcista then senalCompra fila :: generar_senales rest
    else if fila.cruce_bajista then senalVenta fila :: generar_senales rest
    else generar_senales rest

/-- Claim C9: `generar_señales` equals, row by row, the in-order filter of
the rows whose combined bullish or bearish flag is set, each mapped to a BUY
signal when the bullish flag is set (BUY wins when both are set) and to a
SELL signal otherwise.  This gives at most one signal per row, nothing on
unflagged rows, and a signal list in row (time) order; in particular its
length never exceeds the row count. -/
theorem generar_senales_characterization (df : List AnnotatedBar) :
    generar_senales df =
      (df.filter (fun fila => fila.cruce_alcista || fila.cruce_bajista)).map
        (fun fila => if fila.cruce_alcista then senalCompra fila
          else senalVenta fila) ∧
    (generar_senales df).length ≤ df.length := by
  have hmain : ∀ l : List AnnotatedBar, generar_senales l =
      (l.filter (fun fila => fila.cruce_alcista || fila.cruce_bajista)).map
        (fun fila => if fila.cruce_alcista then senalCompra fila
          else senalVenta fila) := by
    intro l
    induction l with
    | nil => rfl
    | cons fila rest ih =>
      by_cases ha : fila.cruce_alcista
      · simp [generar_senales, ha, List.filter_cons, ih]
      · by_cases hb : fila.cruce_bajista
        · simp [generar_senales, ha, hb, List.filter_cons, ih]
        · simp [generar_senales, ha, hb, List.filter_cons, ih]
  refine ⟨hmain df, ?_⟩
  rw [hmain df, List.length_map]
  exact List.length_filter_le _ df

/-- The open-position dict of `calcular_rendimiento`. -/
structure Posicion where
  entrada : ℚ
  fecha_entrada : ℤ
  symbol : String
  deriving DecidableEq, Inhabited

/-- One closed trade dict appended to `operaciones`. -/
structure Operacion where
  symbol : String
  entrada : ℚ
  salida : ℚ
  fecha_entrada : ℤ
  fecha_salida : ℤ
  rendimiento : ℚ
  deriving DecidableEq, Inhabited

/-- The summary dict returned by `calcular_rendimiento`. -/
structure Resumen where
  operaciones : List Operacion
  rendimiento_total : ℚ
  num_operaciones : ℕ
  tasa_acierto : ℚ
  rendimiento_promedio : ℚ
  deriving DecidableEq, Inhabited

/-- The `for señal in señales` loop of `calcular_rendimiento`, carrying the
single `posicion` variable (at most one open position, global across all
symbols in the list): a BUY opens a position only when none is open; a SELL
closes the open position only when its symbol equals the signal's symbol,
emitting a trade with `rendimiento = (precio - entrada) / entrada * 100`;
every other signal is a no-op. -/
def rendimientoLoop : List Senal → Option Posicion → List Operacion
  | [], _ => []
  | s :: rest, none =>
    if s.tipo = "COMPRA" then
      rendimientoLoop rest
        (some { entrada := s.precio, fecha_entrada := s.datetime,
                symbol := s.symbol })
    else rendimientoLoop rest none
  | s :: rest, some p =>
    if s.tipo = "VENTA" ∧ p.symbol = s.symbol then
      { symbol := s.symbol, entrada := p.entrada, salida := s.precio,
        fecha_entrada := p.fecha_entrada, fecha_salida := s.datetime,
        rendimiento := (s.precio - p.entrada) / p.entrada * 100 } ::
        rendimientoLoop rest none
    else rendimientoLoop rest (some p)

/-- `calcular_rendimiento` (the unused `df` parameter of the source is
dropped): `None` for fewer than two signals, else run the pairing loop from
no open position; `None` again when it closed no trade, otherwise the
aggregate summary with `rendimiento_total` the sum of trade returns,
`tasa_acierto = winners / count * 100` and
`rendimiento_promedio = rendimiento_total / count`. -/
def calcular_rendimiento (senales : List Senal) : Option Resumen :=
  if senales.length < 2 then none
  else
    let operaciones := rendimientoLoop senales none
    if operaciones = [] then none
    else
      let rendimiento_total := (operaciones.map (fun op => op.rendimiento)).sum
      some
        { operaciones := operaciones,
          rendimiento_total := rendimiento_total,
          num_operaciones := operaciones.length,
          tasa_acierto :=
            ((operaciones.filter (fun op => decide (op.rendimiento > 0))).length : ℚ)
              / (operaciones.length : ℚ) * 100,
          rendimiento_promedio := rendimiento_total / (operaciones.length : ℚ) }

/-- Signal fixture for concrete test inputs: indicator snapshot fields are
irrelevant to the accountant and left at defaults. -/
def mkSenal (tipo symbol : String) (t : ℤ) (precio : ℚ) : Senal :=
  { tipo := tipo, symbol := symbol, datetime := t, precio := precio,
    ema_rapida := none, ema_lenta := none, vwap := 0, precio_vs_vwap := 0,
    rsi := none, macd := none, confirmacion := [] }

theorem rendimiento_of_mem (senales : List Senal) (pos : Option Posicion)
    (op : Operacion) (hop : op ∈ rendimientoLoop senales pos) :
    op.rendimiento = (op.salida - op.entrada) / op.entrada * 100 := by
  induction senales generalizing pos with
  | nil => simp [rendimientoLoop] at hop
  | cons s rest ih =>
    cases pos with
    | none =>
      rw [rendimientoLoop] at hop
      split at hop
      · exact ih _ hop
      · exact ih _ hop
    | some p =>
      rw [rendimientoLoop] at hop
      split at hop
      · rcases List.mem_cons.mp hop with heq | hmem
        · subst heq
          rfl
        · exact ih _ hmem
      · exact ih _ hop

theorem compra_ne_venta : ("COMPRA" : String) ≠ "VENTA" := by decide

theorem loop_buy_ignored_when_open (s : Senal) (rest : List Senal)
    (p : Posicion) (hc : s.tipo = "COMPRA") :
    rendimientoLoop (s :: rest) (some p) = rendimientoLoop rest (some p) := by
  have hne : ¬(s.tipo = "VENTA" ∧ p.symbol = s.symbol) := by
    rw [hc]
    intro hcon
    exact absurd hcon.1 (by decide)
  rw [rendimientoLoop, if_neg hne]

theorem loop_sell_ignored_no_position (s : Senal) (rest : List Senal)
    (hv : s.tipo = "VENTA") :
    rendimientoLoop (s :: rest) none = rendimientoLoop rest none := by
  have hne : ¬(s.tipo = "COMPRA") := by
    rw [hv]
    decide
  rw [rendimientoLoop, if_neg hne]

theorem loop_sell_other_symbol_ignored (s : Senal) (rest : List Senal)
    (p : Posicion) (hs : p.symbol ≠ s.symbol) :
    rendimientoLoop (s :: rest) (some p) = rendimientoLoop rest (some p) := by
  have hne : ¬(s.tipo = "VENTA" ∧ p.symbol = s.symbol) := fun hcon => hs hcon.2
  rw [rendimientoLoop, if_neg hne]

theorem loop_sell_same_symbol_closes (s : Senal) (rest : List Senal)
    (p : Posicion) (hv : s.tipo = "VENTA") (hs : p.symbol = s.symbol) :
    rendimientoLoop (s :: rest) (some p) =
      { symbol := s.symbol, entrada := p.entrada, salida := s.precio,
        fecha_entrada := p.fecha_entrada, fecha_salida := s.datetime,
        rendimiento := (s.precio - p.entrada) / p.entrada * 100 } ::
        rendimientoLoop rest none := by
  rw [rendimientoLoop, if_pos ⟨hv, hs⟩]

/-- Test fixture: the trade closed by `[BUY@100, BUY@90, SELL@95]`. -/
def opC1 : Operacion :=
  { symbol := "WLD/USDT", entrada := 100, salida := 95, fecha_entrada := 1,
    fecha_salida := 3, rendimiento := -5 }

/-- Test fixture: the summary produced for `[BUY@100, BUY@90, SELL@95]`. -/
def resumenC1 : Resumen :=
  { operaciones := [opC1], rendimiento_total := -5, num_operaciones := 1,
    tasa_acierto := 0, rendimiento_promedio := -5 }

/-- Claim C1: a BUY while a position is open is ignored (the open entry is
not replaced), a SELL with no open position is ignored, every closed trade's
percentage return is `(salida - entrada) / entrada * 100`, and the signal
list `[BUY@100, BUY@90, SELL@95]` yields exactly one closed trade whose
entry price is 100 and whose return is `-5`. -/
theorem rendimiento_position_rules :
    (∀ (s : Senal) (rest : List Senal) (p : Posicion), s.tipo = "COMPRA" →
      rendimientoLoop (s :: rest) (some p) = rendimientoLoop rest (some p)) ∧
    (∀ (s : Senal) (rest : List Senal), s.tipo = "VENTA" →
      rendimientoLoop (s :: rest) none = rendimientoLoop rest none) ∧
    (∀ (senales : List Senal) (pos : Option Posicion) (op : Operacion),
      op ∈ rendimientoLoop senales pos →
      op.rendimiento = (op.salida - op.entrada) / op.entrada * 100) ∧
    (∃ r : Resumen,
      calcular_rendimiento [mkSenal "COMPRA" "WLD/USDT" 1 100,
        mkSenal "COMPRA" "WLD/USDT" 2 90, mkSenal "VENTA" "WLD/USDT" 3 95] =
          some r ∧
      r.operaciones.length = 1 ∧
      (r.operaciones.getD 0 default).entrada = 100 ∧
      (r.operaciones.getD 0 default).rendimiento = -5) := by
  refine ⟨loop_buy_ignored_when_open, loop_sell_ignored_no_position,
    rendimiento_of_mem, ?_⟩
  refine ⟨resumenC1, ?_, rfl, rfl, rfl⟩
  norm_num [calcular_rendimiento, rendimientoLoop, mkSenal, compra_ne_venta,
    resumenC1, opC1]

/-- Test fixture: an open position on `WLD/USDT` entered at price 100. -/
def posWLD : Posicion :=
  { entrada := 100, fecha_entrada := 1, symbol := "WLD/USDT" }

theorem rendimiento_position_rules_witness :
    (rendimientoLoop [mkSenal "COMPRA" "WLD/USDT" 5 50] (some posWLD) =
      rendimientoLoop [] (some posWLD)) ∧
    (rendimientoLoop [mkSenal "VENTA" "WLD/USDT" 5 50] none =
      rendimientoLoop [] none) ∧
    opC1.rendimiento = (opC1.salida - opC1.entrada) / opC1.entrada * 100 :=
  ⟨rendimiento_position_rules.1 (mkSenal "COMPRA" "WLD/USDT" 5 50) [] posWLD
      rfl,
    rendimiento_position_rules.2.1 (mkSenal "VENTA" "WLD/USDT" 5 50) [] rfl,
    rendimiento_position_rules.2.2.1
      [mkSenal "COMPRA" "WLD/USDT" 1 100, mkSenal "COMPRA" "WLD/USDT" 2 90,
        mkSenal "VENTA" "WLD/USDT" 3 95] none opC1
      (by norm_num [rendimientoLoop, mkSenal, compra_ne_venta, opC1])⟩

theorem rendimientoLoop_short (senales : List Senal)
    (h : senales.length < 2) : rendimientoLoop senales none = [] := by
  cases senales with
  | nil => rfl
  | cons s rest =>
    cases rest with
    | nil =>
      rw [rendimientoLoop]
      split <;> rfl
    | cons s2 r2 =>
      simp [List.length_cons] at h
      omega

/-- Claim C2: `calcular_rendimiento` produces a summary iff the pairing loop
closes at least one trade: it returns `None` when fewer than two signals
exist and when the loop closes zero trades, and a non-empty trade list
forces at least two signals, so the early length guard never suppresses a
summary that has trades. -/
theorem rendimiento_some_iff_trades (senales : List Senal) :
    ((calcular_rendimiento senales).isSome ↔
      rendimientoLoop senales none ≠ []) ∧
    (senales.length < 2 → calcular_rendimiento senales = none) ∧
    (rendimientoLoop senales none ≠ [] → 2 ≤ senales.length) := by
  have hlen : rendimientoLoop senales none ≠ [] → 2 ≤ senales.length := by
    intro hne
    by_contra hlt
    exact hne (rendimientoLoop_short senales (by omega))
  refine ⟨?_, ?_, hlen⟩
  · by_cases h2 : senales.length < 2
    · rw [calcular_rendimiento, if_pos h2]
      simp [rendimientoLoop_short senales h2]
    · rw [calcular_rendimiento, if_neg h2]
      by_cases hops : rendimientoLoop senales none = []
      · simp [hops]
      · simp [hops]
  · intro h2
    rw [calcular_rendimiento, if_pos h2]

theorem rendimiento_some_iff_trades_witness :
    calcular_rendimiento [mkSenal "VENTA" "WLD/USDT" 1 100] = none ∧
    2 ≤ ([mkSenal "COMPRA" "WLD/USDT" 1 100,
      mkSenal "VENTA" "WLD/USDT" 2 110] : List Senal).length :=
  ⟨(rendimiento_some_iff_trades [mkSenal "VENTA" "WLD/USDT" 1 100]).2.1
      (by decide),
    (rendimiento_some_iff_trades [mkSenal "COMPRA" "WLD/USDT" 1 100,
        mkSenal "VENTA" "WLD/USDT" 2 110]).2.2
      (by norm_num [rendimientoLoop, mkSenal, compra_ne_venta])⟩

/-- Test fixture: the winning trade closed by `[BUY@100, SELL@110]`. -/
def opGanadora : Operacion :=
  { symbol := "WLD/USDT", entrada := 100, salida := 110, fecha_entrada := 1,
    fecha_salida := 2, rendimiento := 10 }

/-- Test fixture: the summary produced for `[BUY@100, SELL@110]`; its
`tasa_acierto` is `100` (a percentage), not the fraction `1`. -/
def resumenGanadora : Resumen :=
  { operaciones := [opGanadora], rendimiento_total := 10,
    num_operaciones := 1, tasa_acierto := 100, rendimiento_promedio := 10 }

/-- Claim C3 as stated is false on the code: for `[BUY@100, SELL@110]` the
produced summary's win rate field is `100`, not the fraction
`1 = (count of trades with return > 0) / (trade count)`; the source
multiplies the fraction by 100. -/
theorem tasa_acierto_not_fraction :
    calcular_rendimiento [mkSenal "COMPRA" "WLD/USDT" 1 100,
        mkSenal "VENTA" "WLD/USDT" 2 110] = some resumenGanadora ∧
    resumenGanadora.tasa_acierto ≠
      ((resumenGanadora.operaciones.filter
          (fun op => decide (op.rendimiento > 0))).length : ℚ) /
        (resumenGanadora.operaciones.length : ℚ) := by
  constructor
  · norm_num [calcular_rendimiento, rendimientoLoop, mkSenal, compra_ne_venta,
      resumenGanadora, opGanadora]
  · norm_num [resumenGanadora, opGanadora]

/-- Claim C3 (amended): in every produced summary, the win rate field
`tasa_acierto` equals the fraction of trades with positive return multiplied
by 100 (a percentage), the total return is the sum of the trade returns, the
trade count is the length of the trade list, and the average return equals
total return divided by trade count. -/
theorem resumen_aggregates (senales : List Senal) (r : Resumen)
    (h : calcular_rendimiento senales = some r) :
    r.tasa_acierto =
      ((r.operaciones.filter (fun op => decide (op.rendimiento > 0))).length : ℚ)
        / (r.operaciones.length : ℚ) * 100 ∧
    r.rendimiento_total = (r.operaciones.map (fun op => op.rendimiento)).sum ∧
    r.num_operaciones = r.operaciones.length ∧
    r.rendimiento_promedio = r.rendimiento_total / (r.operaciones.length : ℚ) := by
  simp only [calcular_rendimiento] at h
  split at h
  · exact absurd h (by simp)
  · split at h
    · exact absurd h (by simp)
    · obtain rfl := (Option.some.inj h).symm
      exact ⟨rfl, rfl, rfl, rfl⟩

theorem resumen_aggregates_witness :
    resumenGanadora.tasa_acierto =
      ((resumenGanadora.operaciones.filter
          (fun op => decide (op.rendimiento > 0))).length : ℚ) /
        (resumenGanadora.operaciones.length : ℚ) * 100 ∧
    resumenGanadora.rendimiento_total =
      (resumenGanadora.operaciones.map (fun op => op.rendimiento)).sum ∧
    resumenGanadora.num_operaciones = resumenGanadora.operaciones.length ∧
    resumenGanadora.rendimiento_promedio =
      resumenGanadora.rendimiento_total /
        (resumenGanadora.operaciones.length : ℚ) :=
  resumen_aggregates [mkSenal "COMPRA" "WLD/USDT" 1 100,
      mkSenal "VENTA" "WLD/USDT" 2 110] resumenGanadora
    (by norm_num [calcular_rendimiento, rendimientoLoop, mkSenal,
      compra_ne_venta, resumenGanadora, opGanadora])

/-- Claim C10: `calcular_rendimiento` keeps at most one open position
globally (one `posicion` variable for the whole, possibly multi-instrument,
signal list — not one per instrument): while a position for some symbol is
open, any BUY (for any symbol) is ignored, a SELL for a different symbol is
ignored, and exactly a SELL whose symbol equals the open position's closes
it; so interleaved trades of different instruments cannot overlap. -/
theorem single_global_position :
    (∀ (s : Senal) (rest : List Senal) (p : Posicion), s.tipo = "COMPRA" →
      rendimientoLoop (s :: rest) (some p) = rendimientoLoop rest (some p)) ∧
    (∀ (s : Senal) (rest : List Senal) (p : Posicion),
      p.symbol ≠ s.symbol →
      rendimientoLoop (s :: rest) (some p) = rendimientoLoop rest (some p)) ∧
    (∀ (s : Senal) (rest : List Senal) (p : Posicion), s.tipo = "VENTA" →
      p.symbol = s.symbol →
      rendimientoLoop (s :: rest) (some p) =
        { symbol := s.symbol, entrada := p.entrada, salida := s.precio,
          fecha_entrada := p.fecha_entrada, fecha_salida := s.datetime,
          rendimiento := (s.precio - p.entrada) / p.entrada * 100 } ::
          rendimientoLoop rest none) :=
  ⟨loop_buy_ignored_when_open, loop_sell_other_symbol_ignored,
    loop_sell_same_symbol_closes⟩

theorem single_global_position_witness :
    (rendimientoLoop [mkSenal "COMPRA" "BABY/USDT" 5 50] (some posWLD) =
      rendimientoLoop [] (some posWLD)) ∧
    (rendimientoLoop [mkSenal "VENTA" "BABY/USDT" 5 50] (some posWLD) =
      rendimientoLoop [] (some posWLD)) ∧
    (rendimientoLoop [mkSenal "VENTA" "WLD/USDT" 3 95] (some posWLD) =
      { symbol := (mkSenal "VENTA" "WLD/USDT" 3 95).symbol,
        entrada := posWLD.entrada,
        salida := (mkSenal "VENTA" "WLD/USDT" 3 95).precio,
        fecha_entrada := posWLD.fecha_entrada,
        fecha_salida := (mkSenal "VENTA" "WLD/USDT" 3 95).datetime,
        rendimiento := ((mkSenal "VENTA" "WLD/USDT" 3 95).precio -
          posWLD.entrada) / posWLD.entrada * 100 } ::
        rendimientoLoop [] none) :=
  ⟨single_global_position.1 (mkSenal "COMPRA" "BABY/USDT" 5 50) [] posWLD rfl,
    single_global_position.2.1 (mkSenal "VENTA" "BABY/USDT" 5 50) [] posWLD
      (by decide),
    single_global_position.2.2 (mkSenal "VENTA" "WLD/USDT" 3 95) [] posWLD
      rfl rfl⟩
